import Mathlib

/-!
Shallow embedding of the splinter-sabre-dataexporter event pipeline
(src/event_handler/mod.rs, src/event_handler/state_delta.rs, src/config.rs).

The Kafka client, the WebSocket transport and the sawtooth/sabre SDKs are
external crates; their fallible operations are represented by boolean
oracles (`KafkaEnv`, `AdminEnv`, `OpenEnv`), and the observable actions of
the program (queue publishes, stream lifecycle steps, batch submission)
are collected in order as a list of `Effect`s.
-/

namespace DataExporter

/-- Raw byte strings (Rust `Vec<u8>` / `&[u8]`); every entry is a byte,
i.e. assumed `< 256`. -/
abbrev Bytes := List Nat

/-- One lowercase hexadecimal digit for a value in `0..15`. -/
def hexDigit (n : Nat) : Char :=
  if n < 10 then Char.ofNat (48 + n) else Char.ofNat (87 + n)

/-- `to_hex` from src/event_handler/mod.rs: appends each byte with the Rust
format specifier `02x`, i.e. two lowercase hex digits per byte. -/
def to_hex (bytes : Bytes) : String :=
  bytes.foldl (fun buf b => (buf.push (hexDigit (b / 16))).push (hexDigit (b % 16))) ""

/-- Modelled from the spec: `ApplicationMetadata`
(src/application_metadata.rs is declared in main.rs but is not under src/).
Per spec section 3 it is JSON embedded in the circuit proposal that must
contain an `alias` field and carries the scabbard admin keys used by the
contract deployment. The decoded record is represented structurally. -/
structure ApplicationMetadata where
  alias_name : String
  scabbard_admin_keys : List String
deriving Repr, DecidableEq

/-- splinter `SplinterService`: one service entry of a circuit roster. -/
structure SplinterService where
  service_id : String
  service_type : String
  allowed_nodes : List String
  arguments : List (String × String)
deriving Repr, DecidableEq

/-- splinter `SplinterNode`: one member entry of a circuit. -/
structure SplinterNode where
  node_id : String
  endpoint : String
deriving Repr, DecidableEq

/-- splinter `CreateCircuit` (the fields read by this repository).
Enum-valued fields (`authorization_type`, ...) are only ever observed via
`format!`, so they are carried as strings.  `application_metadata` is a
byte blob in the source whose only use is JSON decoding; it is modelled by
its decoding result, `none` standing for bytes that do not parse. -/
structure CreateCircuit where
  circuit_id : String
  authorization_type : String
  persistence : String
  durability : String
  routes : String
  circuit_management_type : String
  application_metadata : Option ApplicationMetadata
  members : List SplinterNode
  roster : List SplinterService
deriving Repr, DecidableEq

/-- splinter vote entry inside a `CircuitProposal`. -/
structure VoteRecord where
  public_key : Bytes
  voter_node_id : String
deriving Repr, DecidableEq

/-- splinter `CircuitProposal` (the fields read by this repository). -/
structure CircuitProposal where
  proposal_type : String
  circuit_id : String
  circuit_hash : String
  requester : Bytes
  requester_node_id : String
  votes : List VoteRecord
  circuit : CreateCircuit
deriving Repr, DecidableEq

/-- splinter `AdminServiceEvent`: the tagged admin-stream event union. -/
inductive AdminServiceEvent
  | ProposalSubmitted (msg_proposal : CircuitProposal)
  | ProposalVote (msg_proposal : CircuitProposal) (signer_public_key : Bytes)
  | ProposalAccepted (msg_proposal : CircuitProposal) (signer_public_key : Bytes)
  | ProposalRejected (msg_proposal : CircuitProposal) (signer_public_key : Bytes)
  | CircuitReady (msg_proposal : CircuitProposal)
deriving Repr, DecidableEq

/-- `DeploymentConfig` from src/config.rs.  The copy of config.rs under src/
predates the event_handler module and lacks the two kafka accessors that
src/event_handler/mod.rs calls; `kafka_url` and `kafka_topic` are modelled
from the spec's configuration surface (`queue_endpoint`, `queue_topic`). -/
structure DeploymentConfig where
  tp_name : String
  tp_version : String
  tpPrefix : String
  tp_path : String
  kafka_url : String
  kafka_topic : String
deriving Repr, DecidableEq

/-- `EventListenerConfig` from src/config.rs. -/
structure EventListenerConfig where
  splinterd_url : String
  deployment_config : DeploymentConfig
deriving Repr, DecidableEq

/-- db_models `NewConsortiumProposal` (timestamps omitted: `SystemTime`
fields are set from the wall clock and never observed by any claim). -/
structure NewConsortiumProposal where
  proposal_type : String
  circuit_id : String
  circuit_hash : String
  requester : String
  requester_node_id : String
  status : String
deriving Repr, DecidableEq

/-- db_models `Consortium` (timestamps omitted as above). -/
structure Consortium where
  circuit_id : String
  authorization_type : String
  persistence : String
  durability : String
  routes : String
  circuit_management_type : String
  alias_name : String
  status : String
deriving Repr, DecidableEq

/-- db_models `NewConsortiumService` (timestamps omitted; the json objects
built from the argument pairs are carried as the pairs themselves). -/
structure NewConsortiumService where
  circuit_id : String
  service_id : String
  service_type : String
  allowed_nodes : List String
  arguments : List (String × String)
  status : String
deriving Repr, DecidableEq

/-- db_models `NewConsortiumMember` (timestamps omitted as above). -/
structure NewConsortiumMember where
  circuit_id : String
  node_id : String
  endpoint : String
  status : String
deriving Repr, DecidableEq

/-- db_models `NewProposalVoteRecord` (timestamp omitted as above). -/
structure NewProposalVoteRecord where
  proposal_id : Int
  voter_public_key : String
  voter_node_id : String
  vote : String
deriving Repr, DecidableEq

/-- Modelled from the spec: the outbound envelope tag
(`Message_MessageType` of the generated crate::proto::pubsub, which is not
under src/).  The spec's CONTRACT_CREATED and STATE_PAYLOAD tags are named
CIRCUIT_CREATED and CIRCUIT_PAYLOAD by the code. -/
inductive Message_MessageType
  | PROPOSAL_SUBMIT
  | PROPOSAL_VOTE
  | PROPOSAL_ACCEPT
  | PROPOSAL_REJECT
  | PROPOSAL_READY
  | CIRCUIT_CREATED
  | CIRCUIT_PAYLOAD
deriving Repr, DecidableEq

/-- Modelled from the spec: payload of a PROPOSAL_SUBMIT envelope
(crate::proto::pubsub::ProposalSubmit, not under src/). -/
structure ProposalSubmit where
  requester : String
  requester_node_id : String
  circuit_id : String
deriving Repr, DecidableEq

/-- Modelled from the spec: payload of the PROPOSAL_VOTE, PROPOSAL_ACCEPT
and PROPOSAL_REJECT envelopes (crate::proto::pubsub::ProposalVote,
ProposalAccept, ProposalReject share this shape; not under src/). -/
structure ProposalVoteMsg where
  voter : String
  voter_node_id : String
  circuit_id : String
deriving Repr, DecidableEq

/-- Modelled from the spec: payload of a PROPOSAL_READY envelope
(crate::proto::pubsub::ProposalReady, not under src/). -/
structure ProposalReady where
  requester : String
  requester_node_id : String
  circuit_id : String
deriving Repr, DecidableEq

/-- Modelled from the spec: payload of a CIRCUIT_CREATED envelope
(crate::proto::pubsub::CircuitCreated, not under src/). -/
structure CircuitCreated where
  requester : String
  requester_node_id : String
  circuit_id : String
deriving Repr, DecidableEq

/-- Modelled from the spec: payload of a CIRCUIT_PAYLOAD envelope
(crate::proto::pubsub::CircuitPayload, not under src/); `data` carries the
state-change value verbatim. -/
structure CircuitPayload where
  requester : String
  requester_node_id : String
  circuit_id : String
  data : Bytes
deriving Repr, DecidableEq

/-- The type-specific payload sitting inside an outbound `Message`.
Protobuf serialization is injective on these records, so the encoded bytes
are represented by the record itself. -/
inductive PayloadBody
  | proposalSubmit (m : ProposalSubmit)
  | proposalVote (m : ProposalVoteMsg)
  | proposalAccept (m : ProposalVoteMsg)
  | proposalReject (m : ProposalVoteMsg)
  | proposalReady (m : ProposalReady)
  | circuitCreated (m : CircuitCreated)
  | circuitPayload (m : CircuitPayload)
deriving Repr, DecidableEq

/-- Modelled from the spec: the fixed outbound envelope
(crate::proto::pubsub::Message, not under src/): a tag plus the encoded
type-specific payload. -/
structure Message where
  field_type : Message_MessageType
  message : PayloadBody
deriving Repr, DecidableEq

/-- `EventHandlerError` from src/event_handler/error.rs; the wrapped
foreign error values are carried as their display strings. -/
inductive EventHandlerError
  | IOError (msg : String)
  | InvalidMessageError (msg : String)
  | ReactorError (msg : String)
  | WebSocketError (msg : String)
  | SabreError (msg : String)
  | SawtoothError (msg : String)
  | SigningError (msg : String)
  | BatchSubmitError (msg : String)
deriving Repr, DecidableEq

/-- `StateDeltaError` from src/event_handler/state_delta.rs. -/
inductive StateDeltaError
  | SDError (msg : String)
deriving Repr, DecidableEq

/-- splinter `events::WebSocketError` (external crate).  Only the
`ParserError` and `ReconnectError` variants are matched by name in this
repository; every remaining transport variant is represented by
`OtherError`. -/
inductive WebSocketError
  | ParserError (desc : String)
  | ReconnectError (desc : String)
  | OtherError (desc : String)
deriving Repr, DecidableEq

/-- splinter `WsResponse` (external crate): what a callback tells the
connection supervisor to do next. -/
inductive WsResponse
  | Empty
  | Close
deriving Repr, DecidableEq

/-- What the on_error handlers do: returning Ok(()) without restarting
leaves the connection permanently closed; calling ctx.start_ws() attempts
a reconnect. -/
inductive ErrorAction
  | closePermanently
  | reconnect
deriving Repr, DecidableEq

/-- splinter `StateChangeEvent` (scabbard state-change record). -/
inductive StateChangeEvent
  | Set (key : String) (value : Bytes)
  | Delete (key : String)
deriving Repr, DecidableEq

/-- The observable actions of the pipeline, in program order. -/
inductive Effect
  /-- successful `producer.send(Record::from_value(topic, bytes))` -/
  | publish (topic : String) (message : Message)
  /-- `igniter.start_ws(&xo_ws)`: the circuit state stream is started -/
  | startWs (circuit_id : String) (service_id : String)
  /-- the state stream's connection is established (its on_open fires) -/
  | streamOpen (circuit_id : String) (service_id : String)
  /-- the scheduled deployment-batch future runs and submits the batch -/
  | submitBatch (circuit_id : String) (service_id : String) (success : Bool)
  /-- the state stream is closed (`WsResponse::Close` from a callback) -/
  | closeWs (circuit_id : String) (service_id : String)
deriving Repr, DecidableEq

/-- Oracles for the Kafka client (external crate): whether
`Producer::from_hosts(..).create()`, `write_to_bytes()` and
`producer.send(..)` succeed. -/
structure KafkaEnv where
  producerOk : Bool
  writeOk : Bool
  sendOk : Bool
deriving Repr, DecidableEq

/-- Oracles for one `process_admin_event` call: the Kafka oracles plus the
result of `igniter.start_ws(&xo_ws)`. -/
structure AdminEnv where
  kafka : KafkaEnv
  startWsOk : Bool
deriving Repr, DecidableEq

/-- Oracles for the circuit state stream after it is started: whether the
connection establishes (so its on_open callback fires), whether `setup_tp`
builds the deployment batch future, whether `ctx.igniter().send(future)`
schedules it, and whether the submission itself then succeeds. -/
structure OpenEnv where
  connectOk : Bool
  setupTpOk : Bool
  igniterSendOk : Bool
  submitOk : Bool
deriving Repr, DecidableEq

/-- The serialize-serialize-send triple repeated at every publish site:
`payload.write_to_bytes()`, `message.write_to_bytes()`,
`producer.send(&Record::from_value(&topic, to_send_bytes))`.  Each failing
step returns its error string; a successful send records one `publish`
effect. -/
def sendKafka {e : Type} (mkErr : String → e) (k : KafkaEnv) (topic : String)
    (m : Message) : Except e Unit × List Effect :=
  if k.writeOk then
    if k.sendOk then (Except.ok (), [Effect.publish topic m])
    else (Except.error (mkErr "kafka send failed"), [])
  else (Except.error (mkErr "write_to_bytes failed"), [])

/-- `parse_proposal` from src/event_handler/mod.rs (timestamp parameter
omitted with the timestamp fields). -/
def parse_proposal (proposal : CircuitProposal) (requester_public_key : String) :
    NewConsortiumProposal :=
  { proposal_type := proposal.proposal_type
    circuit_id := proposal.circuit_id
    circuit_hash := proposal.circuit_hash
    requester := requester_public_key
    requester_node_id := proposal.requester_node_id
    status := "Pending" }

/-- `parse_consortium` from src/event_handler/mod.rs:
`ApplicationMetadata::from_bytes` failure (here: `none`) is propagated as
an `EventHandlerError` via the From impl in src/event_handler/error.rs. -/
def parse_consortium (circuit : CreateCircuit) : Except EventHandlerError Consortium :=
  match circuit.application_metadata with
  | none => Except.error (EventHandlerError.InvalidMessageError "invalid application metadata")
  | some application_metadata =>
    Except.ok
      { circuit_id := circuit.circuit_id
        authorization_type := circuit.authorization_type
        persistence := circuit.persistence
        durability := circuit.durability
        routes := circuit.routes
        circuit_management_type := circuit.circuit_management_type
        alias_name := application_metadata.alias_name
        status := "Pending" }

/-- `parse_splinter_services` from src/event_handler/mod.rs. -/
def parse_splinter_services (circuit_id : String)
    (splinter_services : List SplinterService) : List NewConsortiumService :=
  splinter_services.map (fun service =>
    { circuit_id := circuit_id
      service_id := service.service_id
      service_type := service.service_type
      allowed_nodes := service.allowed_nodes
      arguments := service.arguments
      status := "Pending" })

/-- `parse_splinter_nodes` from src/event_handler/mod.rs. -/
def parse_splinter_nodes (circuit_id : String)
    (splinter_nodes : List SplinterNode) : List NewConsortiumMember :=
  splinter_nodes.map (fun node =>
    { circuit_id := circuit_id
      node_id := node.node_id
      endpoint := node.endpoint
      status := "Pending" })

/-- The roster lookup inside the CircuitReady arm of `process_admin_event`:
`roster.iter().find_map(|service| if service.allowed_nodes.contains(node_id)
then Some(service.service_id) else None)`. -/
def find_local_service (node_id : String) (roster : List SplinterService) : Option String :=
  roster.findSome? (fun service =>
    if service.allowed_nodes.contains node_id then some service.service_id else none)

/-- `process_admin_event` from src/event_handler/mod.rs.  The function
first creates a Kafka producer (failure is an `InvalidMessageError`), then
dispatches on the event tag.  Its value is the Rust return value paired
with the effects performed, in order. -/
def process_admin_event (env : AdminEnv) (node_id : String)
    (config : EventListenerConfig) (admin_event : AdminServiceEvent) :
    Except EventHandlerError Unit × List Effect :=
  if env.kafka.producerOk then
    let topic := config.deployment_config.kafka_topic
    match admin_event with
    | AdminServiceEvent.ProposalSubmitted msg_proposal =>
      let requester := to_hex msg_proposal.requester
      let proposal := parse_proposal msg_proposal requester
      match parse_consortium msg_proposal.circuit with
      | Except.error err => (Except.error err, [])
      | Except.ok _consortium =>
        -- parse_splinter_services / parse_splinter_nodes are computed here
        -- in the source but their results are pure and unobserved
        sendKafka EventHandlerError.InvalidMessageError env.kafka topic
          (Message.mk Message_MessageType.PROPOSAL_SUBMIT
            (PayloadBody.proposalSubmit
              { requester := requester
                requester_node_id := proposal.requester_node_id
                circuit_id := proposal.circuit_id }))
    | AdminServiceEvent.ProposalVote msg_proposal signer_public_key =>
      match msg_proposal.votes.find? (fun v => v.public_key == signer_public_key) with
      | none =>
        (Except.error (EventHandlerError.InvalidMessageError "Missing vote from signer"), [])
      | some vote =>
        let vrec : NewProposalVoteRecord :=
          { proposal_id := 1234
            voter_public_key := to_hex signer_public_key
            voter_node_id := vote.voter_node_id
            vote := "Accept" }
        sendKafka EventHandlerError.InvalidMessageError env.kafka topic
          (Message.mk Message_MessageType.PROPOSAL_VOTE
            (PayloadBody.proposalVote
              { voter := vrec.voter_public_key
                voter_node_id := vrec.voter_node_id
                circuit_id := msg_proposal.circuit_id }))
    | AdminServiceEvent.ProposalAccepted msg_proposal signer_public_key =>
      match msg_proposal.votes.find? (fun v => v.public_key == signer_public_key) with
      | none =>
        (Except.error (EventHandlerError.InvalidMessageError "Missing vote from signer"), [])
      | some vote =>
        let vrec : NewProposalVoteRecord :=
          { proposal_id := 1234
            voter_public_key := to_hex signer_public_key
            voter_node_id := vote.voter_node_id
            vote := "Accept" }
        sendKafka EventHandlerError.InvalidMessageError env.kafka topic
          (Message.mk Message_MessageType.PROPOSAL_ACCEPT
            (PayloadBody.proposalAccept
              { voter := vrec.voter_public_key
                voter_node_id := vrec.voter_node_id
                circuit_id := msg_proposal.circuit_id }))
    | AdminServiceEvent.ProposalRejected msg_proposal signer_public_key =>
      match msg_proposal.votes.find? (fun v => v.public_key == signer_public_key) with
      | none =>
        (Except.error (EventHandlerError.InvalidMessageError "Missing vote from signer"), [])
      | some vote =>
        let vrec : NewProposalVoteRecord :=
          { proposal_id := 1234
            voter_public_key := to_hex signer_public_key
            voter_node_id := vote.voter_node_id
            vote := "Reject" }
        sendKafka EventHandlerError.InvalidMessageError env.kafka topic
          (Message.mk Message_MessageType.PROPOSAL_REJECT
            (PayloadBody.proposalReject
              { voter := vrec.voter_public_key
                voter_node_id := vrec.voter_node_id
                circuit_id := msg_proposal.circuit_id }))
    | AdminServiceEvent.CircuitReady msg_proposal =>
      match find_local_service node_id msg_proposal.circuit.roster with
      | none =>
        -- "New consortium does not have any services for this node"
        (Except.ok (), [])
      | some service_id =>
        match msg_proposal.circuit.application_metadata with
        | none =>
          (Except.error
            (EventHandlerError.InvalidMessageError "unable to parse application metadata"), [])
        | some _metadata =>
          let requester := to_hex msg_proposal.requester
          let proposal := parse_proposal msg_proposal requester
          match sendKafka EventHandlerError.InvalidMessageError env.kafka topic
              (Message.mk Message_MessageType.PROPOSAL_READY
                (PayloadBody.proposalReady
                  { requester := requester
                    requester_node_id := proposal.requester_node_id
                    circuit_id := proposal.circuit_id })) with
          | (Except.error err, effs) => (Except.error err, effs)
          | (Except.ok _, effs) =>
            if env.startWsOk then
              (Except.ok (), effs ++ [Effect.startWs msg_proposal.circuit_id service_id])
            else
              (Except.error (EventHandlerError.ReactorError "failed to start websocket"), effs)
  else
    (Except.error (EventHandlerError.InvalidMessageError "failed to create kafka producer"), [])

/-- The admin-stream message callback registered in `run`
(src/event_handler/mod.rs): an error from `process_admin_event` is logged
and the callback answers `WsResponse::Empty` either way, so the admin
stream is never aborted by a per-event failure. -/
def admin_event_callback (env : AdminEnv) (node_id : String)
    (config : EventListenerConfig) (event : AdminServiceEvent) :
    WsResponse × List Effect :=
  ((fun _ => WsResponse.Empty) (process_admin_event env node_id config event).1,
    (process_admin_event env node_id config event).2)

/-- Processing a whole sequence of admin events through the callback,
one oracle environment per event index: each event is handled
independently and its effects are appended in arrival order. -/
def admin_event_stream (envs : Nat → AdminEnv) (node_id : String)
    (config : EventListenerConfig) : Nat → List AdminServiceEvent → List Effect
  | _, [] => []
  | i, event :: rest =>
    (admin_event_callback (envs i) node_id config event).2 ++
      admin_event_stream envs node_id config (i + 1) rest

/-- The on_error handler registered on the admin stream in `run`:
`ParserError` and `ReconnectError` return Ok(()) without restarting (the
connection stays closed); every other error calls `ctx.start_ws()`. -/
def admin_on_error (err : WebSocketError) : ErrorAction :=
  match err with
  | WebSocketError.ParserError _ => ErrorAction.closePermanently
  | WebSocketError.ReconnectError _ => ErrorAction.closePermanently
  | WebSocketError.OtherError _ => ErrorAction.reconnect

/-- The on_error handler registered on the circuit state stream in the
CircuitReady arm of `process_admin_event`; textually the same match as the
admin one. -/
def scabbard_on_error (err : WebSocketError) : ErrorAction :=
  match err with
  | WebSocketError.ParserError _ => ErrorAction.closePermanently
  | WebSocketError.ReconnectError _ => ErrorAction.closePermanently
  | WebSocketError.OtherError _ => ErrorAction.reconnect

/-- The on_open callback installed on the circuit state stream (`xo_ws`).
Modelled from the spec: `setup_tp` (src/event_handler/sabre.rs is not
under src/) builds and signs the contract deployment batch and yields a
future whose execution submits it; the callback schedules that future with
`ctx.igniter().send(future)`.  A `setup_tp` or scheduling failure is
logged and answered with `WsResponse::Close`; on success the scheduled
future later runs and performs the submission. -/
def xo_on_open (openv : OpenEnv) (circuit_id service_id : String) :
    WsResponse × List Effect :=
  if openv.setupTpOk then
    if openv.igniterSendOk then
      (WsResponse.Empty, [Effect.submitBatch circuit_id service_id openv.submitOk])
    else (WsResponse.Close, [])
  else (WsResponse.Close, [])

/-- The full effect trace of one CircuitReady event, through the state
stream's open: the effects of `process_admin_event`, then — if the stream
was started and its connection establishes — the `streamOpen` step, the
on_open callback's effects, and a `closeWs` when that callback answered
`WsResponse::Close`. -/
def circuitReadyFullTrace (env : AdminEnv) (openv : OpenEnv) (node_id : String)
    (config : EventListenerConfig) (msg_proposal : CircuitProposal) : List Effect :=
  let effs := (process_admin_event env node_id config
    (AdminServiceEvent.CircuitReady msg_proposal)).2
  match find_local_service node_id msg_proposal.circuit.roster with
  | none => effs
  | some service_id =>
    if Effect.startWs msg_proposal.circuit_id service_id ∈ effs ∧ openv.connectOk = true then
      let opened := xo_on_open openv msg_proposal.circuit_id service_id
      effs ++ [Effect.streamOpen msg_proposal.circuit_id service_id] ++ opened.2 ++
        (match opened.1 with
         | WsResponse.Close => [Effect.closeWs msg_proposal.circuit_id service_id]
         | WsResponse.Empty => [])
    else effs

/-- `SabreProcessor` from src/event_handler/state_delta.rs. -/
structure SabreProcessor where
  circuit_id : String
  node_id : String
  requester : String
  contract_address : String
  config : EventListenerConfig
deriving Repr, DecidableEq

/-- `SabreProcessor::new`: the contract address is initialised to the
configured transaction-processor address prefix. -/
def SabreProcessor.new (circuit_id node_id requester : String)
    (config : EventListenerConfig) : SabreProcessor :=
  { circuit_id := circuit_id
    node_id := node_id
    requester := requester
    contract_address := config.deployment_config.tpPrefix
    config := config }

/-- `handle_state_change` from src/event_handler/state_delta.rs.  A fresh
Kafka producer is created per record (failure is an `SDError`), then the
record is matched: a `Set` whose key equals the contract address publishes
CIRCUIT_CREATED; otherwise a `Set` whose first six key characters equal
the configured prefix publishes CIRCUIT_PAYLOAD carrying the value;
`Delete` and any other record publish nothing.  Evaluating the second
guard slices `key[..6]`, which in Rust panics when the key is shorter than
six bytes; the panic is the `none` value. -/
def handle_state_change (p : SabreProcessor) (env : KafkaEnv)
    (change : StateChangeEvent) :
    Option (Except StateDeltaError Unit × List Effect) :=
  if env.producerOk then
    let topic := p.config.deployment_config.kafka_topic
    match change with
    | StateChangeEvent.Set key value =>
      if key = p.contract_address then
        some (sendKafka StateDeltaError.SDError env topic
          (Message.mk Message_MessageType.CIRCUIT_CREATED
            (PayloadBody.circuitCreated
              { requester := p.requester
                requester_node_id := p.node_id
                circuit_id := p.circuit_id })))
      else if 6 ≤ key.length then
        if key.take 6 = p.config.deployment_config.tpPrefix then
          some (sendKafka StateDeltaError.SDError env topic
            (Message.mk Message_MessageType.CIRCUIT_PAYLOAD
              (PayloadBody.circuitPayload
                { requester := p.requester
                  requester_node_id := p.node_id
                  circuit_id := p.circuit_id
                  data := value })))
        else
          -- the catch-all arm: "Unrecognized state change skipping..."
          some (Except.ok (), [])
      else
        -- &key[..6] is out of bounds: the thread panics
        none
    | StateChangeEvent.Delete _ =>
      some (Except.ok (), [])
  else
    some (Except.error (StateDeltaError.SDError "failed to create kafka producer"), [])

/-- `changes.iter().try_for_each(..)` starting from record index `i`:
records are handled in order, the first error stops the batch, and a
panicking record crashes the whole call. -/
def handle_state_changes_from (p : SabreProcessor) (envs : Nat → KafkaEnv) :
    Nat → List StateChangeEvent → Option (Except StateDeltaError Unit × List Effect)
  | _, [] => some (Except.ok (), [])
  | i, change :: rest =>
    match handle_state_change p (envs i) change with
    | none => none
    | some (Except.error err, effs) => some (Except.error err, effs)
    | some (Except.ok _, effs) =>
      match handle_state_changes_from p envs (i + 1) rest with
      | none => none
      | some (r, effs2) => some (r, effs ++ effs2)

/-- `handle_state_changes` from src/event_handler/state_delta.rs. -/
def handle_state_changes (p : SabreProcessor) (envs : Nat → KafkaEnv)
    (changes : List StateChangeEvent) :
    Option (Except StateDeltaError Unit × List Effect) :=
  handle_state_changes_from p envs 0 changes

/-- Sample configuration used by the concrete evaluations below. -/
def cfgEx : EventListenerConfig :=
  { splinterd_url := "http://splinterd:8080"
    deployment_config :=
      { tp_name := "tp"
        tp_version := "1.0"
        tpPrefix := "abcdef"
        tp_path := "/tp"
        kafka_url := "kafka:9092"
        kafka_topic := "events" } }

/-- Kafka oracle with every external operation succeeding. -/
def kafkaOkEx : KafkaEnv :=
  { producerOk := true, writeOk := true, sendOk := true }

/-- Admin oracle with every external operation succeeding. -/
def adminEnvOkEx : AdminEnv :=
  { kafka := kafkaOkEx, startWsOk := true }

/-- State-stream oracle with every step succeeding. -/
def openEnvOkEx : OpenEnv :=
  { connectOk := true, setupTpOk := true, igniterSendOk := true, submitOk := true }

/-- State-stream oracle whose batch submission fails. -/
def openEnvSubmitFailEx : OpenEnv :=
  { connectOk := true, setupTpOk := true, igniterSendOk := true, submitOk := false }

/-- Sample parseable application metadata. -/
def metadataEx : ApplicationMetadata :=
  { alias_name := "demo", scabbard_admin_keys := ["k1"] }

/-- Sample circuit whose roster service allows node n1. -/
def circuitEx : CreateCircuit :=
  { circuit_id := "c1"
    authorization_type := "Trust"
    persistence := "Any"
    durability := "NoDurability"
    routes := "Any"
    circuit_management_type := "consortium"
    application_metadata := some metadataEx
    members := [{ node_id := "n1", endpoint := "tcp://n1" }]
    roster := [{ service_id := "s1"
                 service_type := "scabbard"
                 allowed_nodes := ["n1"]
                 arguments := [] }] }

/-- Sample proposal for circuit c1, requester bytes 0xAB 0xCD, node n1. -/
def proposalEx : CircuitProposal :=
  { proposal_type := "Create"
    circuit_id := "c1"
    circuit_hash := "hash"
    requester := [171, 205]
    requester_node_id := "n1"
    votes := []
    circuit := circuitEx }

/-- Circuit whose only roster service allows a different node. -/
def circuitOtherEx : CreateCircuit :=
  { circuitEx with
      roster := [{ service_id := "s1"
                   service_type := "scabbard"
                   allowed_nodes := ["n2"]
                   arguments := [] }] }

/-- Proposal over `circuitOtherEx`. -/
def proposalOtherEx : CircuitProposal :=
  { proposalEx with circuit := circuitOtherEx }

/-- Circuit whose embedded application metadata does not parse. -/
def circuitBadMdEx : CreateCircuit :=
  { circuitEx with application_metadata := none }

/-- Proposal over `circuitBadMdEx`. -/
def proposalBadMdEx : CircuitProposal :=
  { proposalEx with circuit := circuitBadMdEx }

/-- Sample state processor for circuit c1 on node n1. -/
def procEx : SabreProcessor :=
  SabreProcessor.new "c1" "n1" "abcd" cfgEx

/-- Per-record Kafka oracles where producer creation fails exactly at
record index 1. -/
def envsFailAt1Ex : Nat → KafkaEnv :=
  fun i => if i = 1 then { producerOk := false, writeOk := true, sendOk := true } else kafkaOkEx

/-- Claim C2: a well-formed ProposalSubmitted event (parseable embedded
metadata, working queue) publishes exactly one envelope, tagged
PROPOSAL_SUBMIT, whose requester field is the lowercase two-digit-per-byte
hex encoding `to_hex` of the event's raw requester bytes and whose
requester_node_id and circuit_id are the event's. -/
theorem C2_proposal_submitted_publish (env : AdminEnv) (node_id : String)
    (config : EventListenerConfig) (p : CircuitProposal) (md : ApplicationMetadata)
    (hmd : p.circuit.application_metadata = some md)
    (hp : env.kafka.producerOk = true) (hw : env.kafka.writeOk = true)
    (hs : env.kafka.sendOk = true) :
    process_admin_event env node_id config (AdminServiceEvent.ProposalSubmitted p) =
      (Except.ok (),
        [Effect.publish config.deployment_config.kafka_topic
          (Message.mk Message_MessageType.PROPOSAL_SUBMIT
            (PayloadBody.proposalSubmit
              { requester := to_hex p.requester
                requester_node_id := p.requester_node_id
                circuit_id := p.circuit_id }))]) := by
  simp [process_admin_event, parse_consortium, parse_proposal, sendKafka, hmd, hp, hw, hs]

/-- Witness for C2 at the spec's example scenario: requester bytes
0xAB 0xCD are published as requester "abcd" with node n1 and circuit c1. -/
theorem C2_witness :
    process_admin_event adminEnvOkEx "n1" cfgEx
        (AdminServiceEvent.ProposalSubmitted proposalEx) =
      (Except.ok (),
        [Effect.publish "events"
          (Message.mk Message_MessageType.PROPOSAL_SUBMIT
            (PayloadBody.proposalSubmit
              { requester := "abcd"
                requester_node_id := "n1"
                circuit_id := "c1" }))]) := by
  have h := C2_proposal_submitted_publish adminEnvOkEx "n1" cfgEx proposalEx metadataEx
    rfl rfl rfl rfl
  exact h.trans rfl

/-- Claim C5: a ProposalVote, ProposalAccepted or ProposalRejected event
whose signer's public key is absent from the event's vote list publishes
nothing, is dropped as a per-event error ("Missing vote from signer"), the
callback still answers WsResponse.Empty (no crash, stream kept), and the
event stream goes on with the next event. -/
theorem C5_missing_vote_drops_event (env : AdminEnv) (node_id : String)
    (config : EventListenerConfig) (p : CircuitProposal) (signer : Bytes)
    (event : AdminServiceEvent)
    (hv : p.votes.find? (fun v => v.public_key == signer) = none)
    (he : event = AdminServiceEvent.ProposalVote p signer ∨
          event = AdminServiceEvent.ProposalAccepted p signer ∨
          event = AdminServiceEvent.ProposalRejected p signer) :
    (process_admin_event env node_id config event).2 = [] ∧
    (env.kafka.producerOk = true →
      (process_admin_event env node_id config event).1 =
        Except.error (EventHandlerError.InvalidMessageError "Missing vote from signer")) ∧
    admin_event_callback env node_id config event = (WsResponse.Empty, []) ∧
    (∀ (envs : Nat → AdminEnv) (i : Nat) (rest : List AdminServiceEvent),
      envs i = env →
      admin_event_stream envs node_id config i (event :: rest) =
        admin_event_stream envs node_id config (i + 1) rest) := by
  have heff : (process_admin_event env node_id config event).2 = [] := by
    rcases he with rfl | rfl | rfl <;> cases hb : env.kafka.producerOk <;>
      simp [process_admin_event, hv, hb]
  refine ⟨heff, ?_, ?_, ?_⟩
  · intro hb
    rcases he with rfl | rfl | rfl <;> simp [process_admin_event, hv, hb]
  · simp [admin_event_callback, heff]
  · intro envs i rest hi
    simp [admin_event_stream, admin_event_callback, hi, heff]

/-- Witness for C5: a ProposalVote with an empty vote list and nonempty
signer key is dropped without publishing and without closing the stream. -/
theorem C5_witness :
    (process_admin_event adminEnvOkEx "n1" cfgEx
        (AdminServiceEvent.ProposalVote proposalEx [1])).2 = [] ∧
    (process_admin_event adminEnvOkEx "n1" cfgEx
        (AdminServiceEvent.ProposalVote proposalEx [1])).1 =
      Except.error (EventHandlerError.InvalidMessageError "Missing vote from signer") ∧
    admin_event_callback adminEnvOkEx "n1" cfgEx
        (AdminServiceEvent.ProposalVote proposalEx [1]) = (WsResponse.Empty, []) := by
  have h := C5_missing_vote_drops_event adminEnvOkEx "n1" cfgEx proposalEx [1]
    (AdminServiceEvent.ProposalVote proposalEx [1]) rfl (Or.inl rfl)
  exact ⟨h.1, h.2.1 rfl, h.2.2.1⟩

/-- Claim C6: a CircuitReady event whose roster has no service allowing
the local node is a successful no-op: Ok(()) is returned, nothing is
published, and no circuit state stream is started or opened. -/
theorem C6_circuit_ready_no_local_service (env : AdminEnv) (openv : OpenEnv)
    (node_id : String) (config : EventListenerConfig) (p : CircuitProposal)
    (hfind : find_local_service node_id p.circuit.roster = none)
    (hp : env.kafka.producerOk = true) :
    process_admin_event env node_id config (AdminServiceEvent.CircuitReady p) =
      (Except.ok (), []) ∧
    circuitReadyFullTrace env openv node_id config p = [] := by
  have h1 : process_admin_event env node_id config (AdminServiceEvent.CircuitReady p) =
      (Except.ok (), []) := by
    simp [process_admin_event, hfind, hp]
  refine ⟨h1, ?_⟩
  simp [circuitReadyFullTrace, hfind, h1]

/-- Witness for C6: node n1 processing a circuit whose only service allows
node n2 returns Ok with an empty trace. -/
theorem C6_witness :
    find_local_service "n1" proposalOtherEx.circuit.roster = none ∧
    process_admin_event adminEnvOkEx "n1" cfgEx
        (AdminServiceEvent.CircuitReady proposalOtherEx) = (Except.ok (), []) ∧
    circuitReadyFullTrace adminEnvOkEx openEnvOkEx "n1" cfgEx proposalOtherEx = [] := by
  have h := C6_circuit_ready_no_local_service adminEnvOkEx openEnvOkEx "n1" cfgEx
    proposalOtherEx rfl rfl
  exact ⟨rfl, h.1, h.2⟩

/-- Claim C7: a CircuitReady event with a matching local roster service
whose embedded metadata does not parse fails for that event only: an
InvalidMessageError is returned, nothing is published, no circuit state
stream is started or opened, and the admin callback still answers
WsResponse.Empty so the admin stream is not aborted. -/
theorem C7_unparseable_metadata_event_error (env : AdminEnv) (openv : OpenEnv)
    (node_id : String) (config : EventListenerConfig) (p : CircuitProposal)
    (service_id : String)
    (hfind : find_local_service node_id p.circuit.roster = some service_id)
    (hmd : p.circuit.application_metadata = none)
    (hp : env.kafka.producerOk = true) :
    process_admin_event env node_id config (AdminServiceEvent.CircuitReady p) =
      (Except.error
        (EventHandlerError.InvalidMessageError "unable to parse application metadata"), []) ∧
    admin_event_callback env node_id config (AdminServiceEvent.CircuitReady p) =
      (WsResponse.Empty, []) ∧
    circuitReadyFullTrace env openv node_id config p = [] := by
  have h1 : process_admin_event env node_id config (AdminServiceEvent.CircuitReady p) =
      (Except.error
        (EventHandlerError.InvalidMessageError "unable to parse application metadata"), []) := by
    simp [process_admin_event, hfind, hmd, hp]
  refine ⟨h1, ?_, ?_⟩
  · simp [admin_event_callback, h1]
  · simp [circuitReadyFullTrace, hfind, h1]

/-- Witness for C7: circuit c1 with unparseable metadata on node n1. -/
theorem C7_witness :
    process_admin_event adminEnvOkEx "n1" cfgEx
        (AdminServiceEvent.CircuitReady proposalBadMdEx) =
      (Except.error
        (EventHandlerError.InvalidMessageError "unable to parse application metadata"), []) ∧
    circuitReadyFullTrace adminEnvOkEx openEnvOkEx "n1" cfgEx proposalBadMdEx = [] := by
  have h := C7_unparseable_metadata_event_error adminEnvOkEx openEnvOkEx "n1" cfgEx
    proposalBadMdEx "s1" rfl rfl rfl
  exact ⟨h.1, h.2.2⟩

/-- Claim C8: both streams' on_error handlers classify identically: a
parser/protocol error closes the connection permanently, a
reconnect-exhausted error closes it permanently, and every other transport
error attempts a reconnect. -/
theorem C8_error_classification (desc : String) :
    admin_on_error (WebSocketError.ParserError desc) = ErrorAction.closePermanently ∧
    admin_on_error (WebSocketError.ReconnectError desc) = ErrorAction.closePermanently ∧
    admin_on_error (WebSocketError.OtherError desc) = ErrorAction.reconnect ∧
    scabbard_on_error (WebSocketError.ParserError desc) = ErrorAction.closePermanently ∧
    scabbard_on_error (WebSocketError.ReconnectError desc) = ErrorAction.closePermanently ∧
    scabbard_on_error (WebSocketError.OtherError desc) = ErrorAction.reconnect :=
  ⟨rfl, rfl, rfl, rfl, rfl, rfl⟩

/-- Claim C9: a Set record whose key is shorter than six characters and
different from the contract address makes the classifier panic (the Rust
slice key[..6] is out of bounds), here the `none` result, instead of being
treated as an unrecognized record. -/
theorem C9_short_key_panics :
    handle_state_change procEx kafkaOkEx (StateChangeEvent.Set "ab" [1]) = none ∧
    ("ab" : String) ≠ procEx.contract_address ∧
    ("ab" : String).length < 6 := by
  refine ⟨rfl, by decide, by decide⟩

/-- Claim C3: with a working queue the classifier follows the four-case
definition on every record whose key is long enough to slice (the sub-six
character Set keys instead panic, see the C9 theorem): a Set at exactly
the contract address publishes the contract-created marker (tag
CIRCUIT_CREATED, the spec's CONTRACT_CREATED); any other Set whose first
six key characters equal the configured prefix publishes the application
payload (tag CIRCUIT_PAYLOAD, the spec's STATE_PAYLOAD) carrying the value
verbatim; a Delete publishes nothing; any other record publishes
nothing. -/
theorem C3_classifier_four_cases (p : SabreProcessor) (env : KafkaEnv)
    (key : String) (value : Bytes)
    (hp : env.producerOk = true) (hw : env.writeOk = true) (hs : env.sendOk = true) :
    (key = p.contract_address →
      handle_state_change p env (StateChangeEvent.Set key value) =
        some (Except.ok (),
          [Effect.publish p.config.deployment_config.kafka_topic
            (Message.mk Message_MessageType.CIRCUIT_CREATED
              (PayloadBody.circuitCreated
                { requester := p.requester
                  requester_node_id := p.node_id
                  circuit_id := p.circuit_id }))])) ∧
    (key ≠ p.contract_address → 6 ≤ key.length →
      key.take 6 = p.config.deployment_config.tpPrefix →
      handle_state_change p env (StateChangeEvent.Set key value) =
        some (Except.ok (),
          [Effect.publish p.config.deployment_config.kafka_topic
            (Message.mk Message_MessageType.CIRCUIT_PAYLOAD
              (PayloadBody.circuitPayload
                { requester := p.requester
                  requester_node_id := p.node_id
                  circuit_id := p.circuit_id
                  data := value }))])) ∧
    (key ≠ p.contract_address → 6 ≤ key.length →
      key.take 6 ≠ p.config.deployment_config.tpPrefix →
      handle_state_change p env (StateChangeEvent.Set key value) =
        some (Except.ok (), [])) ∧
    (handle_state_change p env (StateChangeEvent.Delete key) =
      some (Except.ok (), [])) := by
  refine ⟨?_, ?_, ?_, ?_⟩
  · intro hkey
    simp [handle_state_change, sendKafka, hp, hw, hs, hkey]
  · intro hne h6 hpre
    simp [handle_state_change, sendKafka, hp, hw, hs, hne, h6, hpre]
  · intro hne h6 hpre
    simp [handle_state_change, hp, hne, h6, hpre]
  · simp [handle_state_change, hp]

/-- Witness for C3: the four cases evaluated on concrete records for the
c1 processor (contract address and prefix "abcdef"). -/
theorem C3_witness :
    handle_state_change procEx kafkaOkEx (StateChangeEvent.Set "abcdef" [9]) =
      some (Except.ok (),
        [Effect.publish "events"
          (Message.mk Message_MessageType.CIRCUIT_CREATED
            (PayloadBody.circuitCreated
              { requester := "abcd"
                requester_node_id := "n1"
                circuit_id := "c1" }))]) ∧
    handle_state_change procEx kafkaOkEx (StateChangeEvent.Set "abcdef01" [9]) =
      some (Except.ok (),
        [Effect.publish "events"
          (Message.mk Message_MessageType.CIRCUIT_PAYLOAD
            (PayloadBody.circuitPayload
              { requester := "abcd"
                requester_node_id := "n1"
                circuit_id := "c1"
                data := [9] }))]) ∧
    handle_state_change procEx kafkaOkEx (StateChangeEvent.Set "zzzzzz" [9]) =
      some (Except.ok (), []) ∧
    handle_state_change procEx kafkaOkEx (StateChangeEvent.Delete "abcdef01") =
      some (Except.ok (), []) := by
  have h1 := (C3_classifier_four_cases procEx kafkaOkEx "abcdef" [9] rfl rfl rfl).1
    (by decide)
  have h2 := (C3_classifier_four_cases procEx kafkaOkEx "abcdef01" [9] rfl rfl rfl).2.1
    (by decide) (by decide) (by decide)
  have h3 := (C3_classifier_four_cases procEx kafkaOkEx "zzzzzz" [9] rfl rfl rfl).2.2.1
    (by decide) (by decide) (by decide)
  have h4 := (C3_classifier_four_cases procEx kafkaOkEx "abcdef01" [9] rfl rfl rfl).2.2.2
  exact ⟨h1.trans rfl, h2.trans rfl, h3, h4⟩

/-- Claim C4: a Set record whose key starts with the configured six
character prefix (and is not the contract address) publishes a payload
envelope whose data field is the record's original value bytes verbatim —
the published message literally carries `value`. -/
theorem C4_payload_value_roundtrip (p : SabreProcessor) (env : KafkaEnv)
    (key : String) (value : Bytes)
    (hp : env.producerOk = true) (hw : env.writeOk = true) (hs : env.sendOk = true)
    (hne : key ≠ p.contract_address) (h6 : 6 ≤ key.length)
    (hpre : key.take 6 = p.config.deployment_config.tpPrefix) :
    handle_state_change p env (StateChangeEvent.Set key value) =
      some (Except.ok (),
        [Effect.publish p.config.deployment_config.kafka_topic
          (Message.mk Message_MessageType.CIRCUIT_PAYLOAD
            (PayloadBody.circuitPayload
              { requester := p.requester
                requester_node_id := p.node_id
                circuit_id := p.circuit_id
                data := value }))]) := by
  simp [handle_state_change, sendKafka, hp, hw, hs, hne, h6, hpre]

/-- Witness for C4: value bytes 1 2 3 under key "abcdef99" come back
verbatim in the published payload. -/
theorem C4_witness :
    handle_state_change procEx kafkaOkEx (StateChangeEvent.Set "abcdef99" [1, 2, 3]) =
      some (Except.ok (),
        [Effect.publish "events"
          (Message.mk Message_MessageType.CIRCUIT_PAYLOAD
            (PayloadBody.circuitPayload
              { requester := "abcd"
                requester_node_id := "n1"
                circuit_id := "c1"
                data := [1, 2, 3] }))]) := by
  have h := C4_payload_value_roundtrip procEx kafkaOkEx "abcdef99" [1, 2, 3]
    rfl rfl rfl (by decide) (by decide) (by decide)
  exact h.trans rfl

/-- Counterexample to claim C1 as stated: on a CircuitReady event whose
circuit matches the local node and parses, the code opens the circuit
state stream first and submits the deployment batch from the stream's
on-open callback afterwards; here the submission fails
(`submitOk = false`) and yet the stream was opened — `streamOpen` occurs
in the trace, two positions before the failed `submitBatch`. -/
theorem C1_counterexample :
    circuitReadyFullTrace adminEnvOkEx openEnvSubmitFailEx "n1" cfgEx proposalEx =
      [Effect.publish "events"
        (Message.mk Message_MessageType.PROPOSAL_READY
          (PayloadBody.proposalReady
            { requester := "abcd"
              requester_node_id := "n1"
              circuit_id := "c1" })),
       Effect.startWs "c1" "s1",
       Effect.streamOpen "c1" "s1",
       Effect.submitBatch "c1" "s1" false] ∧
    openEnvSubmitFailEx.submitOk = false := by
  exact ⟨rfl, rfl⟩

/-- Claim C1 as amended: on a CircuitReady event with a matching local
roster service and parseable metadata, once the PROPOSAL_READY publish
and the stream start succeed, the circuit state stream is opened first and
the contract deployment batch is built and submitted from the stream's
on-open callback only after the stream is open; if building the batch or
scheduling its submission fails, the already-opened stream is closed
(and nothing is submitted), and a failing submission itself happens after
the stream was opened. -/
theorem C1_stream_opens_before_submission (env : AdminEnv) (openv : OpenEnv)
    (node_id : String) (config : EventListenerConfig) (p : CircuitProposal)
    (service_id : String) (md : ApplicationMetadata)
    (hfind : find_local_service node_id p.circuit.roster = some service_id)
    (hmd : p.circuit.application_metadata = some md)
    (hp : env.kafka.producerOk = true) (hw : env.kafka.writeOk = true)
    (hs : env.kafka.sendOk = true) (hst : env.startWsOk = true)
    (hc : openv.connectOk = true) :
    circuitReadyFullTrace env openv node_id config p =
      [Effect.publish config.deployment_config.kafka_topic
        (Message.mk Message_MessageType.PROPOSAL_READY
          (PayloadBody.proposalReady
            { requester := to_hex p.requester
              requester_node_id := p.requester_node_id
              circuit_id := p.circuit_id })),
       Effect.startWs p.circuit_id service_id,
       Effect.streamOpen p.circuit_id service_id] ++
      (if openv.setupTpOk = true then
        (if openv.igniterSendOk = true then
          [Effect.submitBatch p.circuit_id service_id openv.submitOk]
         else [Effect.closeWs p.circuit_id service_id])
       else [Effect.closeWs p.circuit_id service_id]) := by
  have h1 : process_admin_event env node_id config (AdminServiceEvent.CircuitReady p) =
      (Except.ok (),
        [Effect.publish config.deployment_config.kafka_topic
          (Message.mk Message_MessageType.PROPOSAL_READY
            (PayloadBody.proposalReady
              { requester := to_hex p.requester
                requester_node_id := p.requester_node_id
                circuit_id := p.circuit_id })),
         Effect.startWs p.circuit_id service_id]) := by
    simp [process_admin_event, parse_proposal, sendKafka, hfind, hmd, hp, hw, hs, hst]
  cases h2 : openv.setupTpOk <;> cases h3 : openv.igniterSendOk <;>
    simp [circuitReadyFullTrace, hfind, h1, xo_on_open, hc, h2, h3]

/-- Witness for the amended C1: on the sample circuit, with every step
succeeding, the trace is publish, start, open, then submit — the
submission strictly after the stream opened. -/
theorem C1_witness :
    circuitReadyFullTrace adminEnvOkEx openEnvOkEx "n1" cfgEx proposalEx =
      [Effect.publish "events"
        (Message.mk Message_MessageType.PROPOSAL_READY
          (PayloadBody.proposalReady
            { requester := "abcd"
              requester_node_id := "n1"
              circuit_id := "c1" })),
       Effect.startWs "c1" "s1",
       Effect.streamOpen "c1" "s1",
       Effect.submitBatch "c1" "s1" true] := by
  have h := C1_stream_opens_before_submission adminEnvOkEx openEnvOkEx "n1" cfgEx
    proposalEx "s1" metadataEx rfl rfl rfl rfl rfl rfl rfl
  exact h.trans rfl

/-- try_for_each with an all-successful prefix and a failing next record:
the failing record's error is returned and nothing after it runs. -/
theorem handle_state_changes_from_error_stop (p : SabreProcessor)
    (envs : Nat → KafkaEnv) :
    ∀ (pre : List StateChangeEvent) (i : Nat) (preEffs : List Effect),
      handle_state_changes_from p envs i pre = some (Except.ok (), preEffs) →
      ∀ (c : StateChangeEvent) (e : StateDeltaError) (ceffs : List Effect)
        (rest : List StateChangeEvent),
        handle_state_change p (envs (i + pre.length)) c =
          some (Except.error e, ceffs) →
        handle_state_changes_from p envs i (pre ++ c :: rest) =
          some (Except.error e, preEffs ++ ceffs) := by
  intro pre
  induction pre with
  | nil =>
    intro i preEffs hpre c e ceffs rest hc
    simp only [handle_state_changes_from, Option.some.injEq, Prod.mk.injEq] at hpre
    obtain ⟨-, hpe⟩ := hpre
    subst hpe
    simp only [List.length_nil, Nat.add_zero] at hc
    simp [handle_state_changes_from, hc]
  | cons change pre ih =>
    intro i preEffs hpre c e ceffs rest hc
    simp only [handle_state_changes_from] at hpre
    cases hcc : handle_state_change p (envs i) change with
    | none =>
      rw [hcc] at hpre
      exact absurd hpre (by simp)
    | some v =>
      obtain ⟨r1, effs1⟩ := v
      rw [hcc] at hpre
      cases r1 with
      | error err1 =>
        simp at hpre
      | ok u1 =>
        cases hp2 : handle_state_changes_from p envs (i + 1) pre with
        | none =>
          rw [hp2] at hpre
          exact absurd hpre (by simp)
        | some w =>
          obtain ⟨r2, effs2⟩ := w
          rw [hp2] at hpre
          simp only [Option.some.injEq, Prod.mk.injEq] at hpre
          obtain ⟨hr2, hpe⟩ := hpre
          subst hr2
          subst hpe
          have hidx : i + (change :: pre).length = (i + 1) + pre.length := by
            simp [List.length_cons]
            omega
          rw [hidx] at hc
          have hrec := ih (i + 1) effs2 hp2 c e ceffs rest hc
          simp only [List.cons_append, handle_state_changes_from, hcc, List.append_eq, hrec]
          simp [List.append_assoc]

/-- Claim C10: within one batch, the first failing record (producer
creation, serialization or publish failure) makes `handle_state_changes`
return that record's error; the records after it are not processed (the
result does not depend on `rest` at all), while the effects of the records
before it are kept. -/
theorem C10_first_error_stops_batch (p : SabreProcessor) (envs : Nat → KafkaEnv)
    (pre rest : List StateChangeEvent) (c : StateChangeEvent)
    (e : StateDeltaError) (preEffs ceffs : List Effect)
    (hpre : handle_state_changes_from p envs 0 pre = some (Except.ok (), preEffs))
    (hc : handle_state_change p (envs pre.length) c = some (Except.error e, ceffs)) :
    handle_state_changes p envs (pre ++ c :: rest) =
      some (Except.error e, preEffs ++ ceffs) := by
  have hc0 : handle_state_change p (envs (0 + pre.length)) c =
      some (Except.error e, ceffs) := by
    simpa using hc
  exact handle_state_changes_from_error_stop p envs pre 0 preEffs hpre c e ceffs rest hc0

/-- Witness for C10: the first record publishes the contract-created
marker, the second fails at producer creation, and the third — which
would publish a payload — is never processed; the batch returns the second
record's error with only the first record's publish kept. -/
theorem C10_witness :
    handle_state_changes procEx envsFailAt1Ex
        [StateChangeEvent.Set "abcdef" [5],
         StateChangeEvent.Delete "k1",
         StateChangeEvent.Set "abcdef99" [7]] =
      some (Except.error (StateDeltaError.SDError "failed to create kafka producer"),
        [Effect.publish "events"
          (Message.mk Message_MessageType.CIRCUIT_CREATED
            (PayloadBody.circuitCreated
              { requester := "abcd"
                requester_node_id := "n1"
                circuit_id := "c1" }))]) ∧
    handle_state_change procEx (envsFailAt1Ex 2) (StateChangeEvent.Set "abcdef99" [7]) =
      some (Except.ok (),
        [Effect.publish "events"
          (Message.mk Message_MessageType.CIRCUIT_PAYLOAD
            (PayloadBody.circuitPayload
              { requester := "abcd"
                requester_node_id := "n1"
                circuit_id := "c1"
                data := [7] }))]) := by
  have h := C10_first_error_stops_batch procEx envsFailAt1Ex
    [StateChangeEvent.Set "abcdef" [5]]
    [StateChangeEvent.Set "abcdef99" [7]]
    (StateChangeEvent.Delete "k1")
    (StateDeltaError.SDError "failed to create kafka producer")
    [Effect.publish "events"
      (Message.mk Message_MessageType.CIRCUIT_CREATED
        (PayloadBody.circuitCreated
          { requester := "abcd"
            requester_node_id := "n1"
            circuit_id := "c1" }))]
    [] rfl rfl
  exact ⟨h.trans rfl, rfl⟩

end DataExporter
